import Mathlib

/-
  Verification development for the image-scan / OCR / reward-points
  orchestration code of the repository.

  The TypeScript source is shallowly embedded: every network response is
  passed in explicitly as an `HttpResp` value (its HTTP success flag, its
  status code, its text body, and the outcome of `res.json()` — `none`
  meaning the body is not parseable JSON), and each handler of the
  orchestration becomes a pure function on the `ProcessingEntry` record.
  JavaScript values appearing in responses are modelled by the `Json`
  inductive; JSON numbers are modelled as integers (no verified property
  depends on non-integral numerics).
-/

namespace ImageScan

/-- Model of a JSON / JavaScript value as produced by `JSON.parse` or
`res.json()`. `undefined` cannot appear in parsed JSON, so it has no
constructor; the places where the source can observe `undefined`
(a missing property) are modelled with `Option Json`. -/
inductive Json where
  | null
  | bool (b : Bool)
  | num (n : Int)
  | str (s : String)
  | arr (xs : List Json)
  | obj (fields : List (String × Json))

/-- JavaScript truthiness of a value: `null`, `false`, `0` and `""` are
falsy; every object and array (even empty) is truthy. -/
def jsTruthy : Json → Bool
  | .null => false
  | .bool b => b
  | .num n => n != 0
  | .str s => s != ""
  | .arr _ => true
  | .obj _ => true

/-- `v === null` test from the source's validation loop. -/
def Json.isNull : Json → Bool
  | .null => true
  | _ => false

/-- JavaScript property access `j[k]` used as `parsed.emitente_cnpj`,
`json?.image_id`, etc.: a lookup on objects, `undefined` (`none`) on every
other receiver reachable in the source. -/
def getField (j : Json) (k : String) : Option Json :=
  match j with
  | .obj fields => fields.lookup k
  | _ => none

/-- `Object.values(v)`: throws (`Except.error`) on `null`, returns the
property values of an object, the elements of an array, the single-character
strings of a string, and `[]` on numbers and booleans. -/
def jsObjectValues : Json → Except Unit (List Json)
  | .null => .error ()
  | .obj fields => .ok (fields.map Prod.snd)
  | .arr xs => .ok xs
  | .str s => .ok (s.toList.map (fun c => Json.str (String.mk [c])))
  | .num _ => .ok []
  | .bool _ => .ok []

/-- An HTTP response as observed by the source: `ok` is `res.ok`,
`statusCode` is `res.status`, `bodyText` is what `res.text()` yields, and
`bodyJson` is the outcome of `res.json()` / `JSON.parse` on the body
(`none` when parsing throws). -/
structure HttpResp where
  ok : Bool
  statusCode : Nat
  bodyText : String
  bodyJson : Option Json

/-- Entry status union from the newest `ImageUpload` revision:
`"processing" | "valid" | "invalid" | "error" | "cancelled"`. -/
inductive Status where
  | processing
  | valid
  | invalid
  | error
  | cancelled
deriving DecidableEq, Repr

/-- `effect: { type: "add" | "multiply"; value: string }` of a matched rule. -/
inductive EffectType where
  | add
  | multiply

/-- The `effect` record of a matched rule descriptor. -/
structure RuleEffect where
  effectType : EffectType
  value : String

/-- A `matched` rule descriptor `{ name, effect }`. -/
structure MatchedRule where
  name : String
  effect : RuleEffect

/-- The `ProcessingEntry` interface of the newest `ImageUpload` revision.
`points?: number | null` is three-state and is modelled as
`Option (Option Int)`: `none` = `undefined`, `some none` = `null`,
`some (some n)` = the number `n`; likewise `transactionId` and `matched`.
`data: any` holds either the parsed OCR payload or the raw response text,
both representable as `Json` (`none` before any OCR response). -/
structure ProcessingEntry where
  id : String
  timestamp : Nat
  image : Option String
  status : Status
  data : Option Json
  error : Option String
  points : Option (Option Int)
  transactionId : Option (Option Json)
  matched : Option (List MatchedRule)

/-- Embeds `validateOcrData` (requests module / `ImageUpload.tsx`). The
outcome of the external `JSON.parse(text)` call is passed in as `parsed`
(`none` meaning the parse threw). Faithful to the source: starting from
`isValid = true`, the loop over `Object.values(parsedData)` flips it on any
`null` value — and if `parsedData` is `null` itself, `Object.values`
throws and the surrounding `catch` stores the raw text; the final check
flips validity when `parsedData.emitente_cnpj` is missing or falsy.
Returns `(isValid, parsedData)`. -/
def validateOcrData (parsed : Option Json) (text : String) : Bool × Json :=
  match parsed with
  | none => (false, .str text)
  | some p =>
    match jsObjectValues p with
    | .error _ => (false, .str text)
    | .ok vals =>
      let noNulls := vals.all (fun v => !v.isNull)
      let hasCnpj := jsTruthy ((getField p "emitente_cnpj").getD .null)
      (noNulls && hasCnpj, p)

/-- C2: OCR validation. Parse failure ⇒ invalid with the raw text retained
as the payload; on a parsed object the result is valid exactly when no
top-level value is null and `emitente_cnpj` is present and truthy, with the
parsed object always retained as the payload; and the four concrete
classifications listed by the specification hold. -/
theorem c2_validateOcrData_classification :
    (∀ text : String, validateOcrData none text = (false, .str text)) ∧
    (∀ (fields : List (String × Json)) (text : String),
      (validateOcrData (some (.obj fields)) text).2 = .obj fields ∧
      ((validateOcrData (some (.obj fields)) text).1 = true ↔
        (∀ v ∈ fields.map Prod.snd, v.isNull = false) ∧
        jsTruthy ((getField (.obj fields) "emitente_cnpj").getD .null) = true)) ∧
    (validateOcrData
      (some (.obj [("emitente_cnpj", .str "123"), ("total", .str "10")]))
      "\x7b\"emitente_cnpj\":\"123\",\"total\":\"10\"\x7d").1 = true ∧
    (validateOcrData
      (some (.obj [("emitente_cnpj", .str "123"), ("total", .null)]))
      "\x7b\"emitente_cnpj\":\"123\",\"total\":null\x7d").1 = false ∧
    (validateOcrData
      (some (.obj [("total", .str "10")]))
      "\x7b\"total\":\"10\"\x7d").1 = false ∧
    validateOcrData none "hello" = (false, .str "hello") := by
  refine ⟨fun _ => rfl, fun fields text => ⟨rfl, ?_⟩, rfl, rfl, rfl, rfl⟩
  simp only [validateOcrData, jsObjectValues, Bool.and_eq_true, List.all_eq_true,
    Bool.not_eq_true']

/-- Embeds `Upload` (requests module). The argument is the response of
`fetch(ScanHost/upload)`. Source: throw on `!uploadRes.ok`; parse the body
(`res.json()` throwing is `bodyJson = none`); read `uploadJson?.image_id`;
throw when that is falsy; otherwise return it. -/
def Upload (uploadRes : HttpResp) : Except String Json :=
  if !uploadRes.ok then
    .error ("Falha no upload (" ++ toString uploadRes.statusCode ++ ").")
  else
    match uploadRes.bodyJson with
    | none => .error "Resposta de upload malformada."
    | some uploadJson =>
      let imageId := (getField uploadJson "image_id").getD .null
      if !jsTruthy imageId then .error "image_id ausente na resposta de upload."
      else .ok imageId

/-- Embeds `Scan` (requests module). The triple returned is the mutated
entry, the list of entries published through `onProcessingComplete` before
control returns or the exception propagates, and the outcome (`.ok scanId`
or `.error message`). On `!scanRes.ok` the source sets
`newEntry.status = "error"`, `newEntry.error = errorText || fallback`,
publishes the entry, and only then throws the same message. -/
def Scan (scanRes : HttpResp) (newEntry : ProcessingEntry) :
    ProcessingEntry × List ProcessingEntry × Except String Json :=
  if !scanRes.ok then
    let errorText := scanRes.bodyText
    let msg := if errorText != "" then errorText
      else "Falha no OCR (" ++ toString scanRes.statusCode ++ ")."
    let e := { newEntry with status := .error, error := some msg }
    (e, [e], .error msg)
  else
    match scanRes.bodyJson with
    | none => (newEntry, [], .error "Resposta de scan malformada.")
    | some scanData =>
      let scanId := (getField scanData "scan_id").getD .null
      if !jsTruthy scanId then
        (newEntry, [], .error "scan_id ausente na resposta de scan.")
      else (newEntry, [], .ok scanId)

/-- Embeds `GerarPontos` (requests module). The source awaits
`response.json()` before checking `response.ok`, so an unparsable body
throws first; then it throws on a non-success status, then on a falsy
`transactionId`, and otherwise returns the transaction id. The request
body (`value`, `params`, `nfid`) does not influence the returned state and
is not modelled; the `nfid` nonce generator is modelled separately as
`randomString`. -/
def GerarPontos (response : HttpResp) : Except String Json :=
  match response.bodyJson with
  | none => .error "Resposta de pontos malformada."
  | some generateData =>
    if !response.ok then
      .error ("Erro ao gerar pontos: " ++ toString response.statusCode)
    else
      let transactionId := (getField generateData "transactionId").getD .null
      if !jsTruthy transactionId then .error "TransactionId não retornado"
      else .ok transactionId

/-- Embeds `startPointsProcessing` (newest `ImageUpload` revision). The
`GerarPontos` outcome is passed in. On success the source stores the
transaction id on the entry and calls `startPointsPolling`, whose first
action is `entry.points = undefined`; on any caught failure it sets
`entry.points = null` and `entry.error = "Erro ao gerar pontos"`, leaving
`status` untouched. -/
def startPointsProcessing (entry : ProcessingEntry) (genResult : Except String Json) :
    ProcessingEntry :=
  match genResult with
  | .ok transactionId =>
    { entry with transactionId := some (some transactionId), points := none }
  | .error _ =>
    { entry with points := some none, error := some "Erro ao gerar pontos" }

/-- A concrete entry as created by `doUploadAndScan` and then classified
valid by OCR. -/
def sampleValidEntry : ProcessingEntry :=
  { id := "1757000000000"
    timestamp := 0
    image := none
    status := .valid
    data := some (.obj [("emitente_cnpj", .str "123")])
    error := none
    points := none
    transactionId := none
    matched := none }

/-- C9: `Upload` fails exactly when the HTTP status is non-success or the
response lacks an image identifier (unparsable body, absent `image_id`
field, or falsy `image_id` value), and on success it returns exactly the
`image_id` value of the response body. -/
theorem c9_upload_failure_iff (r : HttpResp) :
    ((∃ v, Upload r = .ok v) ↔
      r.ok = true ∧ ∃ j, r.bodyJson = some j ∧
        jsTruthy ((getField j "image_id").getD .null) = true) ∧
    (∀ j, r.bodyJson = some j → r.ok = true →
      jsTruthy ((getField j "image_id").getD .null) = true →
      Upload r = .ok ((getField j "image_id").getD .null)) := by
  constructor
  · constructor
    · intro ⟨v, hv⟩
      unfold Upload at hv
      by_cases hok : r.ok
      · simp only [hok, Bool.not_true, Bool.false_eq_true, if_false] at hv
        cases hj : r.bodyJson with
        | none => rw [hj] at hv; cases hv
        | some j =>
          rw [hj] at hv
          by_cases ht : jsTruthy ((getField j "image_id").getD .null)
          · exact ⟨hok, j, rfl, ht⟩
          · simp only [ht, Bool.not_false, if_true] at hv; cases hv
      · simp only [Bool.not_eq_true'] at hok
        simp [hok, Upload] at hv
    · rintro ⟨hok, j, hj, ht⟩
      exact ⟨(getField j "image_id").getD .null, by simp [Upload, hok, hj, ht]⟩
  · intro j hj hok ht
    simp [Upload, hok, hj, ht]

/-- C9 witness: a success-status response whose body carries
`image_id = "img1"` makes `Upload` return exactly that id. -/
theorem c9_upload_witness :
    Upload ⟨true, 200, "", some (.obj [("image_id", .str "img1")])⟩ =
      .ok (.str "img1") :=
  (c9_upload_failure_iff ⟨true, 200, "", some (.obj [("image_id", .str "img1")])⟩).2
    (.obj [("image_id", .str "img1")]) rfl rfl rfl

/-- C6: when the scan response has a non-success status, `Scan` records the
failure on the entry (`status = error`, `error` = the failure text, which
is non-empty), publishes exactly that updated entry via
`onProcessingComplete`, and throws an exception carrying the same message
— so the caller observes an entry already recorded as `error`. -/
theorem c6_scan_failure_records_error (r : HttpResp) (e : ProcessingEntry)
    (hr : r.ok = false) :
    (Scan r e).1.status = .error ∧
    (∃ m, (Scan r e).1.error = some m ∧ m ≠ "" ∧
      (Scan r e).2.2 = .error m) ∧
    (Scan r e).2.1 = [(Scan r e).1] := by
  have hfb : ("Falha no OCR (" ++ toString r.statusCode ++ ").") ≠ "" := by
    intro hcon
    have h2 : ("Falha no OCR (" ++ toString r.statusCode ++ ").").length = 0 := by
      rw [hcon]; rfl
    rw [String.length_append, String.length_append] at h2
    have h3 : (").").length = 2 := rfl
    omega
  by_cases ht : r.bodyText = ""
  · refine ⟨by simp [Scan, hr], ⟨"Falha no OCR (" ++ toString r.statusCode ++ ").",
      by simp [Scan, hr, ht], hfb, by simp [Scan, hr, ht]⟩, by simp [Scan, hr]⟩
  · refine ⟨by simp [Scan, hr], ⟨r.bodyText,
      by simp [Scan, hr, ht], ht, by simp [Scan, hr, ht]⟩, by simp [Scan, hr]⟩

/-- C6 witness: a 500-status scan response with body text `"boom"` leaves
the entry with `status = error`. -/
theorem c6_scan_failure_witness :
    (Scan ⟨false, 500, "boom", none⟩ sampleValidEntry).1.status = .error :=
  (c6_scan_failure_records_error ⟨false, 500, "boom", none⟩ sampleValidEntry rfl).1

/-- C3: for an entry classified `valid` or `invalid` by OCR, any failure of
points generation (modelled as `GerarPontos` throwing with message `msg`)
sets `points` to `null` and `error` to the non-empty descriptive message
`"Erro ao gerar pontos"` while leaving `status` unchanged; and
`GerarPontos` can only succeed when the HTTP status is a success and the
body carries a truthy `transactionId` — every non-success status, missing
transaction id, or unparsable body is a thrown failure. -/
theorem c3_points_failure_preserves_status (e : ProcessingEntry) (msg : String)
    (h : e.status = .valid ∨ e.status = .invalid) :
    (startPointsProcessing e (.error msg)).status = e.status ∧
    (startPointsProcessing e (.error msg)).points = some none ∧
    (startPointsProcessing e (.error msg)).error = some "Erro ao gerar pontos" ∧
    "Erro ao gerar pontos" ≠ "" ∧
    (∀ r : HttpResp, (∃ j, GerarPontos r = .ok j) →
      r.ok = true ∧ ∃ d, r.bodyJson = some d ∧
        jsTruthy ((getField d "transactionId").getD .null) = true) := by
  refine ⟨rfl, rfl, rfl, by simp, ?_⟩
  intro r ⟨j, hj⟩
  unfold GerarPontos at hj
  cases hd : r.bodyJson with
  | none => rw [hd] at hj; cases hj
  | some d =>
    rw [hd] at hj
    by_cases hok : r.ok
    · by_cases htr : jsTruthy ((getField d "transactionId").getD .null)
      · exact ⟨hok, d, rfl, htr⟩
      · simp only [Bool.not_eq_true] at htr
        simp only [hok, Bool.not_true, Bool.false_eq_true, if_false, htr,
          Bool.not_false, if_true] at hj
        exact Except.noConfusion hj
    · simp only [Bool.not_eq_true'] at hok
      simp [hok] at hj

/-- C3 witness: a points-generation failure on a concrete valid entry keeps
`status = valid` and sets `points` to `null`. -/
theorem c3_points_failure_witness :
    (startPointsProcessing sampleValidEntry (.error "boom")).status = .valid ∧
    (startPointsProcessing sampleValidEntry (.error "boom")).points = some none := by
  have h := c3_points_failure_preserves_status sampleValidEntry "boom" (Or.inl rfl)
  exact ⟨h.1, h.2.1⟩

/-- The OCR polling interval of `startOcrPolling`: `setInterval(..., 1000)`. -/
def ocrPollIntervalMs : Nat := 1000

/-- The OCR polling deadline of `startOcrPolling`: `setTimeout(..., 120000)`. -/
def ocrPollTimeoutMs : Nat := 120000

/-- One second of OCR polling as observed by a `startOcrPolling` tick: the
`scan/verify` response (`verify`), the outcome of `JSON.parse` on its text
body (`parsed`, fed to `validateOcrData`), and the `points/generate`
response used when the tick classifies the entry valid (`gen`). -/
structure OcrTick where
  verify : HttpResp
  parsed : Option Json
  gen : HttpResp

/-- Embeds one iteration of the `setInterval` callback of `startOcrPolling`
(newest `ImageUpload` revision), whose network work is `VerifyOcrRoute`
(requests module): a non-success verify response throws, is caught, and
the loop continues (`none`); otherwise the response text is validated, the
entry's `status` becomes `valid`/`invalid` and its `data` the (parsed or
raw) payload, the interval is cleared, and — only if valid — the tick
chains into `startPointsProcessing` (`some` = resolved, loop stopped). -/
def ocrTick (entry : ProcessingEntry) (t : OcrTick) : Option ProcessingEntry :=
  if !t.verify.ok then none
  else
    let res := validateOcrData t.parsed t.verify.bodyText
    let e := { entry with status := if res.1 then .valid else .invalid,
                          data := some res.2 }
    some (if res.1 then startPointsProcessing e (GerarPontos t.gen) else e)

/-- Embeds the 120-second `setTimeout` handler of `startOcrPolling` (newest
`ImageUpload` revision): after clearing the interval, an entry still in
`processing` transitions to `cancelled` with a descriptive error; every
other entry is left untouched. -/
def ocrTimeoutHandler (entry : ProcessingEntry) : ProcessingEntry :=
  if entry.status = .processing then
    { entry with status := .cancelled,
                 error := some "Processamento cancelado - Timeout no OCR." }
  else entry

/-- The interval ticks of `startOcrPolling` up to the 120-second deadline:
each failing tick leaves the entry untouched and the loop continues; the
first resolving tick yields the final entry of the loop. -/
def runOcrTicks (entry : ProcessingEntry) : List OcrTick → ProcessingEntry
  | [] => entry
  | t :: rest =>
    match ocrTick entry t with
    | none => runOcrTicks entry rest
    | some e => e

/-- Embeds `startOcrPolling entry scanId` (newest `ImageUpload` revision)
over a full trace of at most 120 one-second ticks: the interval callbacks
run (stopping at the first resolution), and the 120 s `setTimeout` — which
`clearInterval` does not cancel — then applies the timeout handler (a
no-op unless the entry is still `processing`). The `scanId` only addresses
the network probe and does not influence the state transition. -/
def startOcrPolling (entry : ProcessingEntry) (scanId : String)
    (ticks : List OcrTick) : ProcessingEntry :=
  let _ := scanId
  ocrTimeoutHandler (runOcrTicks entry ticks)

/-- A concrete entry as created by `doUploadAndScan`, still in
`processing`. -/
def sampleProcessingEntry : ProcessingEntry :=
  { id := "1757000000001"
    timestamp := 0
    image := none
    status := .processing
    data := none
    error := none
    points := some none
    transactionId := none
    matched := none }

/-- A verify tick whose probe fails with a 503 (caught and retried). -/
def failingTick : OcrTick :=
  { verify := ⟨false, 503, "", none⟩, parsed := none, gen := ⟨false, 500, "", none⟩ }

/-- C1: if every tick of the 120-second OCR polling window fails to resolve
(non-success verify responses throughout), an entry that entered the loop
in `processing` leaves it `cancelled` with the non-empty error
`"Processamento cancelado - Timeout no OCR."`; moreover the timeout
handler never leaves any entry in `processing` and never moves an entry to
any status other than `cancelled` (it is the identity on non-`processing`
entries), and the loop's constants are a 1-second interval and a
120-second deadline. -/
theorem c1_ocr_timeout_cancels (e : ProcessingEntry) (scanId : String)
    (ticks : List OcrTick) (hfail : ∀ t ∈ ticks, t.verify.ok = false)
    (hproc : e.status = .processing) :
    (startOcrPolling e scanId ticks).status = .cancelled ∧
    (startOcrPolling e scanId ticks).error =
      some "Processamento cancelado - Timeout no OCR." ∧
    "Processamento cancelado - Timeout no OCR." ≠ "" ∧
    (∀ e' : ProcessingEntry, (ocrTimeoutHandler e').status ≠ .processing) ∧
    (∀ e' : ProcessingEntry,
      ocrTimeoutHandler e' = e' ∨ (ocrTimeoutHandler e').status = .cancelled) ∧
    ocrPollIntervalMs = 1000 ∧ ocrPollTimeoutMs = 120000 := by
  have hrun : runOcrTicks e ticks = e := by
    induction ticks with
    | nil => rfl
    | cons t rest ih =>
      have hv : t.verify.ok = false := hfail t (List.mem_cons_self t rest)
      have : ocrTick e t = none := by simp [ocrTick, hv]
      simp only [runOcrTicks, this]
      exact ih (fun t' ht' => hfail t' (List.mem_cons_of_mem t ht'))
  have hnever : ∀ e' : ProcessingEntry, (ocrTimeoutHandler e').status ≠ .processing := by
    intro e'
    unfold ocrTimeoutHandler
    by_cases hp : e'.status = .processing
    · simp [hp]
    · simp [hp]
  have hmono : ∀ e' : ProcessingEntry,
      ocrTimeoutHandler e' = e' ∨ (ocrTimeoutHandler e').status = .cancelled := by
    intro e'
    unfold ocrTimeoutHandler
    by_cases hp : e'.status = .processing
    · right; simp [hp]
    · left; simp [hp]
  refine ⟨?_, ?_, by simp, hnever, hmono, rfl, rfl⟩
  · simp [startOcrPolling, hrun, ocrTimeoutHandler, hproc]
  · simp [startOcrPolling, hrun, ocrTimeoutHandler, hproc]

/-- C1 witness: three failing verify ticks on a concrete `processing` entry
end in `cancelled`. -/
theorem c1_ocr_timeout_witness :
    (startOcrPolling sampleProcessingEntry "scan1"
      [failingTick, failingTick, failingTick]).status = .cancelled :=
  (c1_ocr_timeout_cancels sampleProcessingEntry "scan1"
    [failingTick, failingTick, failingTick]
    (by intro t ht; simp [failingTick] at ht; rw [ht]) rfl).1

/-- Numeric value of a character when it is a digit (decimal or hex). -/
def digitVal (c : Char) : Option Nat :=
  if '0' ≤ c ∧ c ≤ '9' then some (c.toNat - '0'.toNat)
  else if 'a' ≤ c ∧ c ≤ 'f' then some (c.toNat - 'a'.toNat + 10)
  else if 'A' ≤ c ∧ c ≤ 'F' then some (c.toNat - 'A'.toNat + 10)
  else none

/-- Whether `c` is a digit of the given base (10 or 16 here). -/
def isBaseDigit (base : Nat) (c : Char) : Bool :=
  match digitVal c with
  | some v => v < base
  | none => false

/-- Value of a digit run in the given base. -/
def digitsToNat (base : Nat) (ds : List Char) : Nat :=
  ds.foldl (fun acc c => acc * base + (digitVal c).getD 0) 0

/-- JavaScript `parseInt(s)` with unspecified radix: skip leading
whitespace, read an optional sign, detect a `0x`/`0X` hex prefix, then
take the leading run of digits of the detected base; `none` models `NaN`
(no digits found). -/
def jsParseInt (s : String) : Option Int :=
  let cs := s.toList.dropWhile (fun c => c.isWhitespace)
  let signed :=
    match cs with
    | '-' :: rest => ((-1 : Int), rest)
    | '+' :: rest => ((1 : Int), rest)
    | _ => ((1 : Int), cs)
  let based :=
    match signed.2 with
    | '0' :: 'x' :: rest => (16, rest)
    | '0' :: 'X' :: rest => (16, rest)
    | _ => (10, signed.2)
  let ds := based.2.takeWhile (isBaseDigit based.1)
  if ds.isEmpty then none
  else some (signed.1 * (digitsToNat based.1 ds : Int))

mutual

/-- JavaScript `String(v)` coercion, as `parseInt` applies it to its
argument: arrays join their stringified elements with commas (null
elements stringify to the empty string), objects become
`"[object Object]"`. -/
def jsToString : Json → String
  | .null => "null"
  | .bool b => if b then "true" else "false"
  | .num n => toString n
  | .str s => s
  | .arr xs => jsToStringList xs
  | .obj _ => "[object Object]"

/-- Comma-joined stringification of array elements. -/
def jsToStringList : List Json → String
  | [] => ""
  | [x] => if x.isNull then "" else jsToString x
  | x :: rest => (if x.isNull then "" else jsToString x) ++ "," ++ jsToStringList rest

end

/-- The strict-equality test `verifyData.status === "generated"`: only a
string value equal to `"generated"` passes. -/
def statusGenerated (j : Json) : Bool :=
  match j with
  | .str s => s == "generated"
  | _ => false

/-- The resolution test of `VerifyPoints`:
`verifyData.status === "generated" && verifyData.points` (truthy). -/
def pointsResolved (verifyData : Json) : Bool :=
  statusGenerated ((getField verifyData "status").getD .null) &&
  jsTruthy ((getField verifyData "points").getD .null)

/-- The value stored on resolution:
`parseInt(verifyData.points) || 0` — `parseInt` of the stringified value,
with `NaN` (and `0` itself) collapsing to `0`. No clamping is applied. -/
def resolvedPoints (pts : Json) : Int :=
  (jsParseInt (jsToString pts)).getD 0

/-- Embeds `VerifyPoints` (requests module). A non-success status or an
unparsable body throws (`.error`, caught by the polling loop). Otherwise,
when the resolution test passes, the source sets
`entry.points = parseInt(verifyData.points) || 0`, publishes the entry and
clears the interval (`true` = loop stopped); when it does not pass, the
entry is untouched and the loop continues (`false`). -/
def VerifyPoints (verifyResponse : HttpResp) (entry : ProcessingEntry) :
    Except String (ProcessingEntry × Bool) :=
  if !verifyResponse.ok then
    .error ("Erro ao verificar pontos: " ++ toString verifyResponse.statusCode)
  else
    match verifyResponse.bodyJson with
    | none => .error "Resposta de pontos malformada."
    | some verifyData =>
      if pointsResolved verifyData then
        .ok ({ entry with points := some (some (resolvedPoints
          ((getField verifyData "points").getD .null))) }, true)
      else .ok (entry, false)

/-- Embeds the `catch` of the `setInterval` callback of
`startPointsPolling` (newest `ImageUpload` revision): a thrown probe error
sets `points = null` and `error = "Erro ao processar pontos"` and clears
the interval; `status` is untouched. -/
def pointsPollFailureHandler (entry : ProcessingEntry) : ProcessingEntry :=
  { entry with points := some none, error := some "Erro ao processar pontos" }

/-- A points-verify response reporting `status: "generated"` with the
negative numeric string `"-5"` as `points`. -/
def negPointsResp : HttpResp :=
  ⟨true, 200, "", some (.obj [("status", .str "generated"), ("points", .str "-5")])⟩

/-- C8 counterexample: on the resolving response
`{"status":"generated","points":"-5"}` the source stores
`parseInt("-5") || 0 = -5` — a negative value — so "entry.points is set to
a non-negative integer ... clamped to non-negative" is false: no clamping
exists in `VerifyPoints`. -/
theorem c8_counterexample_negative_points :
    VerifyPoints negPointsResp sampleProcessingEntry =
      .ok ({ sampleProcessingEntry with points := some (some (-5)) }, true) ∧
    (-5 : Int) < 0 :=
  ⟨rfl, by decide⟩

/-- C8 (amended): a points-verify poll is resolved exactly when the
response's `status` field is the string `"generated"` and its `points`
value is truthy; on resolution `entry.points` is set to
`parseInt(String(points))`, defaulting to `0` when unparsable — the value
is not clamped and may be negative — and the polling loop stops; an
unresolved poll leaves the entry unchanged and the loop running. -/
theorem c8_points_resolution (r : HttpResp) (d : Json) (e : ProcessingEntry)
    (hok : r.ok = true) (hd : r.bodyJson = some d) :
    (pointsResolved d = true ↔
      getField d "status" = some (.str "generated") ∧
      jsTruthy ((getField d "points").getD .null) = true) ∧
    (pointsResolved d = true →
      VerifyPoints r e = .ok ({ e with points := some (some (resolvedPoints
        ((getField d "points").getD .null))) }, true)) ∧
    (pointsResolved d = false → VerifyPoints r e = .ok (e, false)) ∧
    (∀ p : Json, resolvedPoints p = (jsParseInt (jsToString p)).getD 0) := by
  refine ⟨?_, ?_, ?_, fun p => rfl⟩
  · unfold pointsResolved statusGenerated
    cases hf : getField d "status" with
    | none =>
      simp only [hf, Option.getD_none]
      simp
    | some v =>
      cases v with
      | str s =>
        simp only [hf, Option.getD_some, Bool.and_eq_true, beq_iff_eq]
        constructor
        · rintro ⟨h1, h2⟩; exact ⟨by rw [h1], h2⟩
        · rintro ⟨h1, h2⟩; cases h1; exact ⟨rfl, h2⟩
      | null => simp [hf]
      | bool b => simp [hf]
      | num n => simp [hf]
      | arr xs => simp [hf]
      | obj fs => simp [hf]
  · intro hres
    simp [VerifyPoints, hok, hd, hres]
  · intro hres
    simp [VerifyPoints, hok, hd, hres]

/-- C8 witness: the resolving response
`{"status":"generated","points":"15"}` sets `points` to `15` and stops the
loop. -/
theorem c8_points_resolution_witness :
    VerifyPoints ⟨true, 200, "", some (.obj
        [("status", .str "generated"), ("points", .str "15")])⟩
      sampleProcessingEntry =
      .ok ({ sampleProcessingEntry with points := some (some 15) }, true) :=
  (c8_points_resolution
    ⟨true, 200, "", some (.obj [("status", .str "generated"), ("points", .str "15")])⟩
    (.obj [("status", .str "generated"), ("points", .str "15")])
    sampleProcessingEntry rfl rfl).2.1 rfl

/-- The points polling interval of `startPointsPolling`:
`setInterval(..., 5000)`. -/
def pointsPollIntervalMs : Nat := 5000

/-- The points polling deadline of `startPointsPolling` in the
`src/components/ImageUpload.tsx` revision: `setTimeout(..., 120000)`. -/
def pointsPollTimeoutMs : Nat := 120000

/-- Embeds the 120-second `setTimeout` handler of `startPointsPolling` in
the `src/components/ImageUpload.tsx` revision (the revision that carries a
points-polling deadline): it clears the interval and, when `points` is
still `null`, emits a console diagnostic. The entry is not mutated. The
pair returned is the (unchanged) entry and the emitted diagnostics. -/
def pointsPollTimeoutHandler (entry : ProcessingEntry) :
    ProcessingEntry × List String :=
  (entry, if entry.points = some none then
    ["Timeout no processamento de pontos para entry: " ++ entry.id] else [])

/-- C5: the points polling loop uses a 5-second interval and a 120-second
deadline, and the deadline handler stops the loop without mutating the
entry — in particular `status` and `points` are unchanged; only the
diagnostic component carries information. -/
theorem c5_points_poll_timeout_frame (e : ProcessingEntry) :
    (pointsPollTimeoutHandler e).1 = e ∧
    (pointsPollTimeoutHandler e).1.status = e.status ∧
    (pointsPollTimeoutHandler e).1.points = e.points ∧
    pointsPollIntervalMs = 5000 ∧ pointsPollTimeoutMs = 120000 :=
  ⟨rfl, rfl, rfl, rfl, rfl⟩

/-- The data-model invariant claimed by the specification in the direction
that the code actually maintains: an entry whose `status` is `error`
carries a non-null `error` message. -/
@[reducible]
def errorInvariant (e : ProcessingEntry) : Prop :=
  e.status = .error → e.error ≠ none

/-- Embeds the `catch` of `doUploadAndScan` (newest `ImageUpload`
revision): when the caught upload/scan failure finds the entry still in
`processing`, it records `status = "error"` and
`error = e?.message || "Erro ao processar o OCR."` and republishes the
entry; when the `Scan` failure path already recorded the error state, the
entry is left as it is. -/
def uploadScanFailureHandler (entry : ProcessingEntry) (msg : String) :
    ProcessingEntry :=
  if entry.status = .processing then
    { entry with status := .error,
                 error := some (if msg != "" then msg else "Erro ao processar o OCR.") }
  else entry

lemma errorInvariant_startPointsProcessing (e : ProcessingEntry)
    (g : Except String Json) (h : errorInvariant e) :
    errorInvariant (startPointsProcessing e g) := by
  cases g with
  | ok j => intro hs; exact h hs
  | error m => intro _; simp [startPointsProcessing]

lemma errorInvariant_ocrTick (e e' : ProcessingEntry) (t : OcrTick)
    (h : ocrTick e t = some e') : errorInvariant e' := by
  unfold ocrTick at h
  by_cases hv : t.verify.ok
  · simp only [hv, Bool.not_true, Bool.false_eq_true, if_false,
      Option.some.injEq] at h
    by_cases hres : (validateOcrData t.parsed t.verify.bodyText).1
    · rw [if_pos hres] at h
      subst h
      apply errorInvariant_startPointsProcessing
      intro hs
      rw [if_pos hres] at hs
      exact Status.noConfusion hs
    · rw [if_neg hres] at h
      subst h
      intro hs
      rw [if_neg hres] at hs
      exact Status.noConfusion hs
  · simp only [Bool.not_eq_true] at hv
    simp [hv] at h

lemma errorInvariant_runOcrTicks (ticks : List OcrTick) (e : ProcessingEntry)
    (h : errorInvariant e) : errorInvariant (runOcrTicks e ticks) := by
  induction ticks with
  | nil => exact h
  | cons t rest ih =>
    simp only [runOcrTicks]
    cases hm : ocrTick e t with
    | none => exact ih
    | some e' => exact errorInvariant_ocrTick e e' t hm

lemma errorInvariant_ocrTimeoutHandler (e : ProcessingEntry)
    (h : errorInvariant e) : errorInvariant (ocrTimeoutHandler e) := by
  unfold ocrTimeoutHandler
  by_cases hp : e.status = .processing
  · rw [if_pos hp]
    intro _
    simp
  · rw [if_neg hp]
    exact h

/-- C4 counterexample: a points-generation failure on a `valid` entry
yields an entry whose `error` is non-null while its `status` is not
`error` — refuting "error is non-null iff status equals error" as an
invariant holding after every operation. -/
theorem c4_counterexample_error_without_error_status :
    (startPointsProcessing sampleValidEntry (.error "boom")).error ≠ none ∧
    (startPointsProcessing sampleValidEntry (.error "boom")).status ≠ .error := by
  constructor
  · simp [startPointsProcessing]
  · intro hs
    exact absurd hs (by decide)

/-- C4 (amended): after every modelled operation, `entry.error` is
non-null **if** `entry.status = error` (each handler that sets the status
to `error` also records a message, and no handler erases the message while
in `error`); the converse direction of the claimed "iff" fails, because the
OCR-timeout handler and the points-failure handlers set a non-null `error`
while the status is `cancelled`, `valid` or `invalid`. -/
theorem c4_error_invariant_preserved (e : ProcessingEntry)
    (g : Except String Json) (scanId msg : String) (ticks : List OcrTick)
    (r : HttpResp) (h : errorInvariant e) :
    errorInvariant (startPointsProcessing e g) ∧
    errorInvariant (pointsPollFailureHandler e) ∧
    errorInvariant (ocrTimeoutHandler e) ∧
    errorInvariant (startOcrPolling e scanId ticks) ∧
    errorInvariant (uploadScanFailureHandler e msg) ∧
    errorInvariant (Scan r e).1 ∧
    (∀ (e' : ProcessingEntry) (b : Bool),
      VerifyPoints r e = .ok (e', b) → errorInvariant e') := by
  refine ⟨errorInvariant_startPointsProcessing e g h,
    ?_, errorInvariant_ocrTimeoutHandler e h, ?_, ?_, ?_, ?_⟩
  · intro _
    simp [pointsPollFailureHandler]
  · exact errorInvariant_ocrTimeoutHandler _ (errorInvariant_runOcrTicks ticks e h)
  · unfold uploadScanFailureHandler
    by_cases hp : e.status = .processing
    · rw [if_pos hp]
      intro _
      simp
    · rw [if_neg hp]
      exact h
  · unfold Scan
    by_cases hok : r.ok
    · simp only [hok, Bool.not_true, Bool.false_eq_true, if_false]
      cases hd : r.bodyJson with
      | none => exact h
      | some scanData =>
        by_cases hsc : jsTruthy ((getField scanData "scan_id").getD .null)
        · simp only [hsc, Bool.not_true, Bool.false_eq_true, if_false]
          exact h
        · simp only [Bool.not_eq_true] at hsc
          simp only [hsc, Bool.not_false, if_true]
          exact h
    · simp only [Bool.not_eq_true] at hok
      simp only [hok, Bool.not_false, if_true]
      intro _
      simp
  · intro e' b hv
    unfold VerifyPoints at hv
    by_cases hok : r.ok
    · simp only [hok, Bool.not_true, Bool.false_eq_true, if_false] at hv
      cases hd : r.bodyJson with
      | none => rw [hd] at hv; cases hv
      | some verifyData =>
        rw [hd] at hv
        dsimp only at hv
        by_cases hres : pointsResolved verifyData
        · rw [if_pos hres, Except.ok.injEq, Prod.mk.injEq] at hv
          obtain ⟨he', _⟩ := hv
          subst he'
          intro hs
          exact h hs
        · rw [if_neg hres, Except.ok.injEq, Prod.mk.injEq] at hv
          obtain ⟨he', _⟩ := hv
          subst he'
          exact h
    · simp only [Bool.not_eq_true] at hok
      simp [hok] at hv

/-- C4 witness: the preservation statement applied to a concrete valid
entry (whose invariant holds vacuously) and a failing points generation. -/
theorem c4_error_invariant_witness :
    errorInvariant (startPointsProcessing sampleValidEntry (.error "x")) :=
  (c4_error_invariant_preserved sampleValidEntry (.error "x") "scan1" "m" []
    ⟨false, 500, "", none⟩ (fun hs => absurd hs (by decide))).1

lemma id_startPointsProcessing (e : ProcessingEntry) (g : Except String Json) :
    (startPointsProcessing e g).id = e.id := by
  cases g <;> rfl

lemma id_ocrTick (e e' : ProcessingEntry) (t : OcrTick)
    (h : ocrTick e t = some e') : e'.id = e.id := by
  unfold ocrTick at h
  by_cases hv : t.verify.ok
  · simp only [hv, Bool.not_true, Bool.false_eq_true, if_false,
      Option.some.injEq] at h
    by_cases hres : (validateOcrData t.parsed t.verify.bodyText).1
    · rw [if_pos hres] at h
      subst h
      rw [id_startPointsProcessing]
    · rw [if_neg hres] at h
      subst h
      rfl
  · simp only [Bool.not_eq_true] at hv
    simp [hv] at h

lemma id_runOcrTicks (ticks : List OcrTick) (e : ProcessingEntry) :
    (runOcrTicks e ticks).id = e.id := by
  induction ticks with
  | nil => rfl
  | cons t rest ih =>
    simp only [runOcrTicks]
    cases hm : ocrTick e t with
    | none => exact ih
    | some e' => exact id_ocrTick e e' t hm

lemma id_ocrTimeoutHandler (e : ProcessingEntry) :
    (ocrTimeoutHandler e).id = e.id := by
  unfold ocrTimeoutHandler
  split <;> rfl

lemma id_startOcrPolling (e : ProcessingEntry) (scanId : String)
    (ticks : List OcrTick) : (startOcrPolling e scanId ticks).id = e.id := by
  unfold startOcrPolling
  rw [id_ocrTimeoutHandler, id_runOcrTicks]

/-- Modelled from the spec: the page-level component that owns the Entry
Store (the `entries` array whose updater replaces an entry by matching
`id`) and the Retry/Cancel/Delete Controller is not among the source
files — only its collaborators are (the upload component publishes the
`window.retryOcr` hook that restarts `startOcrPolling`, and
`ProcessingHistory` consumes `onRetryOcr`). Per §4.4 of the spec,
`retryOcr(entry, scanId)` "resets `status` to `processing`, clears
`error`, and re-invokes OCR polling against the same `scanId`". The reset
applied to the existing entry before polling restarts: -/
def retryReset (e : ProcessingEntry) : ProcessingEntry :=
  { e with status := .processing, error := none }

/-- Modelled from the spec: the Entry-Store-level `retryOcr` operation —
the entry with the given id is reset and re-enters OCR polling via the
published hook; every other entry is untouched, and no record is added or
removed (the store updater replaces by `id`). -/
def retryOcrController (store : List ProcessingEntry) (entryId scanId : String)
    (ticks : List OcrTick) : List ProcessingEntry :=
  store.map (fun e =>
    if e.id = entryId then startOcrPolling (retryReset e) scanId ticks else e)

/-- C7: `retryOcr` reuses the existing entry identity: it resets the
matched entry's `status` to `processing` and clears its `error`, restarts
polling against the same scan id, creates no second store record (the
store's length and its id sequence are unchanged), and calling it twice
leaves the store size identical to the original. -/
theorem c7_retryOcr_idempotent_store (store : List ProcessingEntry)
    (entryId scanId : String) (ticks ticks2 : List OcrTick) :
    (retryOcrController store entryId scanId ticks).length = store.length ∧
    (retryOcrController (retryOcrController store entryId scanId ticks)
      entryId scanId ticks2).length = store.length ∧
    (retryOcrController store entryId scanId ticks).map (fun e => e.id) =
      store.map (fun e => e.id) ∧
    (∀ e : ProcessingEntry,
      (retryReset e).status = .processing ∧ (retryReset e).error = none ∧
      (retryReset e).id = e.id ∧
      (startOcrPolling (retryReset e) scanId ticks).id = e.id) := by
  refine ⟨by simp [retryOcrController], by simp [retryOcrController], ?_,
    fun e => ⟨rfl, rfl, rfl, id_startOcrPolling (retryReset e) scanId ticks⟩⟩
  unfold retryOcrController
  rw [List.map_map]
  apply List.map_congr_left
  intro e _
  simp only [Function.comp_apply]
  by_cases hid : e.id = entryId
  · rw [if_pos hid, id_startOcrPolling]
    rfl
  · rw [if_neg hid]

/-- C10: the nonce generator builds a 12-character string; because the
random index is `Math.floor(Math.random() * (letters.length - 1))` with a
36-character alphabet, every index is below 35, so every character comes
from the first 35 alphabet characters and the final character `'m'` can
never appear. -/
def letters : String := "0987654321qwertyuiopasdfghjklzxcvbnm"

/-- `Math.floor(r * (letters.length - 1))` for a `Math.random()` outcome
`r`, modelled over the rationals. -/
def jsRandomIndex (r : ℚ) : ℕ :=
  (Int.floor (r * ((letters.length : ℚ) - 1))).toNat

/-- Embeds `randomString` (requests module): twelve iterations, each
appending `letters[jsRandomIndex r]` for a fresh `Math.random()` outcome
`r`. -/
def randomString (rands : Fin 12 → ℚ) : String :=
  String.mk ((List.finRange 12).map
    (fun i => letters.toList.getD (jsRandomIndex (rands i)) ' '))

lemma jsRandomIndex_lt (r : ℚ) (h0 : 0 ≤ r) (h1 : r < 1) :
    jsRandomIndex r < 35 := by
  have hlen36 : letters.length = 36 := rfl
  have hlen : ((letters.length : ℚ) - 1) = 35 := by
    rw [hlen36]
    norm_num
  have hmul : r * ((letters.length : ℚ) - 1) < 35 := by
    rw [hlen]
    calc r * 35 < 1 * 35 := by
          apply mul_lt_mul_of_pos_right h1
          norm_num
      _ = 35 := by norm_num
  have hfloor : Int.floor (r * ((letters.length : ℚ) - 1)) < 35 :=
    Int.floor_lt.mpr (by exact_mod_cast hmul)
  unfold jsRandomIndex
  omega

/-- C10: for random outcomes in `[0, 1)` the generated nonce has exactly
12 characters, every random index is below 35, every character of the
nonce belongs to the first 35 characters of the alphabet and is never
`'m'`, and the alphabet has 36 characters. -/
theorem c10_randomString_never_m (rands : Fin 12 → ℚ)
    (h : ∀ i, 0 ≤ rands i ∧ rands i < 1) :
    (randomString rands).length = 12 ∧
    (∀ i, jsRandomIndex (rands i) < 35) ∧
    (∀ c ∈ (randomString rands).toList,
      c ∈ letters.toList.take 35 ∧ c ≠ 'm') ∧
    letters.length = 36 := by
  have hidx : ∀ i, jsRandomIndex (rands i) < 35 :=
    fun i => jsRandomIndex_lt (rands i) (h i).1 (h i).2
  have hget_mem : ∀ n : ℕ, n < 35 → letters.toList.getD n ' ' ∈ letters.toList.take 35 := by
    decide
  have hget_ne : ∀ n : ℕ, n < 35 → letters.toList.getD n ' ' ≠ 'm' := by
    decide
  refine ⟨?_, hidx, ?_, rfl⟩
  · show ((List.finRange 12).map _).length = 12
    rw [List.length_map, List.length_finRange]
  · intro c hc
    have hc' : c ∈ (List.finRange 12).map
        (fun i => letters.toList.getD (jsRandomIndex (rands i)) ' ') := hc
    obtain ⟨i, _, rfl⟩ := List.mem_map.mp hc'
    exact ⟨hget_mem _ (hidx i), hget_ne _ (hidx i)⟩

/-- C10 witness: with every random outcome `0`, the nonce has length 12
and consists of characters other than `'m'`. -/
theorem c10_randomString_witness :
    (randomString (fun _ => 0)).length = 12 :=
  (c10_randomString_never_m (fun _ => 0)
    (fun _ => ⟨le_refl 0, by norm_num⟩)).1

end ImageScan
